import Mathlib

/-!
Verification development for the `playwright-auth-injector` package.

The TypeScript sources are shallowly embedded here:

* `src/errors.ts`       → `AuthErrorCode`, `AuthErr`, message builders;
* `src/providers/firebase.ts` (class `FirebaseAuthProvider`)
                        → `FirebaseAuthProvider.validateConfig`,
                          `FirebaseAuthProvider.exchangeCustomToken`,
                          `FirebaseAuthProvider.createAuthData`,
                          `FirebaseAuthProvider.initializeAdmin`,
                          `FirebaseAuthProvider.inject`, `resetAdminInitialization`;
* `src/providers/index.ts` (registry) → `getProvider`;
* `src/index.ts` (`injectAuth`, registry-based revision) → `injectAuthSelect`;
* `src/config.ts`       → `CONFIG_FILE_NAMES`, `findConfigPath`, `loadConfig`,
                          `Config.validateConfig`, `clearConfigCache`.

Untyped JavaScript values inspected by the validators are modelled by
`JSValue` (with JS truthiness and `typeof`).  Effectful boundaries (the
admin SDK, `fetch`, `page.addInitScript`, the filesystem, dynamic `import`)
are modelled by passing each call's outcome in explicitly, so every
function here is the pure data transformation the source performs on those
outcomes.  Module-level mutable state (`adminInitialized`, `cachedConfig`)
is passed in and returned explicitly.
-/

/-- Untyped JavaScript runtime values, as far as the validators inspect them. -/
inductive JSValue where
  | null
  | undefined
  | bool (b : Bool)
  | num (n : Int)
  | str (s : String)
  | obj (fields : List (String × JSValue))
  | arr (elems : List JSValue)

/-- First binding of a key in a JS-object field list (later shadowed keys are
unreachable, as in a JS object literal where the engine keeps one slot per key). -/
def assocLookup {α : Type} : List (String × α) → String → Option α
  | [], _ => none
  | (k₀, v) :: rest, k => if k₀ = k then some v else assocLookup rest k

/-- JavaScript truthiness: `false`, `0`, `""`, `null`, `undefined` are falsy. -/
def JSValue.truthy : JSValue → Bool
  | .null => false
  | .undefined => false
  | .bool b => b
  | .num n => n != 0
  | .str s => !s.isEmpty
  | .obj _ => true
  | .arr _ => true

/-- JavaScript `typeof` (note `typeof null === "object"`, arrays are objects). -/
def JSValue.typeName : JSValue → String
  | .null => "object"
  | .undefined => "undefined"
  | .bool _ => "boolean"
  | .num _ => "number"
  | .str _ => "string"
  | .obj _ => "object"
  | .arr _ => "object"

/-- Property access `v[k]`: `undefined` when absent or when `v` is not an object
(the validators only read named properties of objects that passed the
`typeof v === "object"` guard, so prototype lookups never matter here). -/
def JSValue.getField (v : JSValue) (k : String) : JSValue :=
  match v with
  | .obj fields => (assocLookup fields k).getD JSValue.undefined
  | _ => JSValue.undefined

/-- The underlying string of a string value (only read after a
`typeof v === "string"` check in the embedded code). -/
def JSValue.asString : JSValue → String
  | .str s => s
  | _ => ""

/-- Strict equality of a JS value with a string literal (`v === "s"`). -/
def JSValue.isStr (v : JSValue) (s : String) : Bool :=
  match v with
  | .str t => t = s
  | _ => false

/-- JS string coercion as used inside template literals.  Array element joining
is elided (no embedded message interpolates an array). -/
def JSValue.display : JSValue → String
  | .null => "null"
  | .undefined => "undefined"
  | .bool b => if b then "true" else "false"
  | .num n => toString n
  | .str s => s
  | .obj _ => "[object Object]"
  | .arr _ => ""

/-- `x || null` on an optional JS string: an empty string is falsy and also
collapses to `null` (src/providers/firebase.ts `createAuthData`). -/
def jsStringOrNull : Option String → Option String
  | some s => if s.isEmpty then none else some s
  | none => none

/-- The error codes of src/errors.ts (`AuthErrorCode`). -/
inductive AuthErrorCode where
  | CONFIG_NOT_FOUND
  | CONFIG_INVALID
  | AUTH_FAILED
  | TOKEN_EXCHANGE_FAILED
  | INJECTION_FAILED
  deriving DecidableEq, Repr

/-- The `AuthError` subclasses of src/errors.ts, by their distinguishing data:
`ConfigNotFoundError` (search paths), `ConfigInvalidError` (message, optional
field path), `AuthenticationError` (message), `TokenExchangeError` (message,
optional HTTP status), `InjectionError` (message). -/
inductive AuthErr where
  | configNotFound (searchPaths : List String)
  | configInvalid (message : String) (field : Option String)
  | authenticationFailed (message : String)
  | tokenExchangeFailed (message : String) (statusCode : Option Nat)
  | injectionFailed (message : String)
  deriving DecidableEq, Repr

/-- The `code` carried by each src/errors.ts subclass. -/
def AuthErr.code : AuthErr → AuthErrorCode
  | .configNotFound _ => .CONFIG_NOT_FOUND
  | .configInvalid _ _ => .CONFIG_INVALID
  | .authenticationFailed _ => .AUTH_FAILED
  | .tokenExchangeFailed _ _ => .TOKEN_EXCHANGE_FAILED
  | .injectionFailed _ => .INJECTION_FAILED

/-- `ConfigNotFoundError`'s message: the fixed Japanese header followed by one
indented line per attempted path (src/errors.ts). -/
def configNotFoundMessage (searchPaths : List String) : String :=
  "設定ファイルが見つかりません。以下のパスを探しました:\n" ++
    String.intercalate "\n" (searchPaths.map (fun p => "  - " ++ p))

/-- The `message` property each src/errors.ts constructor builds. -/
def AuthErr.message : AuthErr → String
  | .configNotFound ps => configNotFoundMessage ps
  | .configInvalid m (some fld) => "設定エラー [" ++ fld ++ "]: " ++ m
  | .configInvalid m none => "設定エラー: " ++ m
  | .authenticationFailed m => m
  | .tokenExchangeFailed m _ => m
  | .injectionFailed m => m

/-- What `injectAuth` and the registry can throw: an `AuthError` subclass, or a
plain `Error` (the registry's unknown-provider throw is a plain `Error`). -/
inductive ThrownError where
  | auth (e : AuthErr)
  | plain (message : String)
  deriving DecidableEq, Repr

/-- The provider tags of the static registry (src/providers/index.ts). -/
inductive Provider where
  | firebase
  | supabase
  deriving DecidableEq, Repr

/-- `getProvider` of src/providers/index.ts: lookup in the static registry
record; an unregistered name throws a plain `Error`, not an `AuthError`. -/
def getProvider (name : String) : Except ThrownError Provider :=
  if name = "firebase" then .ok .firebase
  else if name = "supabase" then .ok .supabase
  else .error (.plain ("Unknown provider: " ++ name))

/-- `FirebaseConfig` of src/types.ts. -/
structure FirebaseConfig where
  serviceAccount : String
  apiKey : String
  uid : String
  deriving DecidableEq, Repr

/-- `FirebaseTokenResponse` of src/types.ts (the exchange endpoint's JSON). -/
structure FirebaseTokenResponse where
  idToken : String
  refreshToken : String
  expiresIn : String
  deriving DecidableEq, Repr

/-- One linked-identity record of the admin SDK's `UserRecord.providerData`,
restricted to the fields `createAuthData` reads.  Absent/null string fields
are `none`. -/
structure ProviderUserInfo where
  providerId : String
  uid : String
  displayName : Option String
  email : Option String
  phoneNumber : Option String
  photoURL : Option String
  deriving DecidableEq, Repr

/-- `UserRecord.metadata`, restricted to what `createAuthData` reads.
`creationTimeMs` is the value of `new Date(metadata.creationTime).getTime()`
when `metadata.creationTime` is truthy, `none` otherwise (the host `Date`
parser is abstracted to its numeric result). -/
structure UserMetadata where
  creationTimeMs : Option Int
  deriving DecidableEq, Repr

/-- The admin SDK's `UserRecord`, restricted to the fields `createAuthData`
reads.  `providerData` is always an array in the SDK (`|| []` in the source is
the identity on arrays, empty arrays being truthy). -/
structure UserRecord where
  uid : String
  email : Option String
  emailVerified : Bool
  providerData : List ProviderUserInfo
  metadata : UserMetadata
  deriving DecidableEq, Repr

/-- `stsTokenManager` of the stored `FirebaseAuthUser`.  `expirationTime`
is a JS number; `none` models `NaN` (from `parseInt` on a non-numeric
`expiresIn`). -/
structure StsTokenManager where
  accessToken : String
  refreshToken : String
  expirationTime : Option Int
  deriving DecidableEq, Repr

/-- `FirebaseAuthUser` of src/types.ts: the value stored in IndexedDB. -/
structure FirebaseAuthUser where
  uid : String
  email : Option String
  emailVerified : Bool
  isAnonymous : Bool
  providerData : List ProviderUserInfo
  stsTokenManager : StsTokenManager
  createdAt : String
  lastLoginAt : String
  apiKey : String
  appName : String
  deriving DecidableEq, Repr

/-- The pair `createAuthData` returns: IndexedDB key and stored value. -/
structure AuthData where
  fbase_key : String
  value : FirebaseAuthUser
  deriving DecidableEq, Repr

/-- Leading-whitespace skipping of JS `parseInt`. -/
def skipLeadingWs : List Char → List Char
  | [] => []
  | c :: rest => if c.isWhitespace then skipLeadingWs rest else c :: rest

/-- JS `parseInt(s, 10)`: skip leading whitespace, optional sign, longest
digit run; `none` models `NaN` (no digits). -/
def parseIntBase10 (s : String) : Option Int :=
  let t := skipLeadingWs s.toList
  let signed : Int × List Char :=
    match t with
    | '-' :: rest => (-1, rest)
    | '+' :: rest => (1, rest)
    | _ => (1, t)
  let digits := signed.2.takeWhile Char.isDigit
  if digits.isEmpty then none
  else some (signed.1 * (digits.foldl (fun acc c => acc * 10 + (c.toNat - 48)) (0 : Nat) : Nat))

/-- `FirebaseAuthProvider.validateConfig` (src/providers/firebase.ts):
four guards in source order, each rejecting falsy or wrongly-typed input with
a `ConfigInvalidError` carrying the dotted field path, then a fresh object
with exactly the three validated string fields. -/
def FirebaseAuthProvider.validateConfig (config : JSValue) :
    Except AuthErr FirebaseConfig :=
  if !config.truthy || config.typeName != "object" then
    .error (.configInvalid "firebase config is required" (some "firebase"))
  else if !(config.getField "serviceAccount").truthy
      || (config.getField "serviceAccount").typeName != "string" then
    .error (.configInvalid "serviceAccount must be a string" (some "firebase.serviceAccount"))
  else if !(config.getField "apiKey").truthy
      || (config.getField "apiKey").typeName != "string" then
    .error (.configInvalid "apiKey must be a string" (some "firebase.apiKey"))
  else if !(config.getField "uid").truthy
      || (config.getField "uid").typeName != "string" then
    .error (.configInvalid "uid must be a string" (some "firebase.uid"))
  else
    .ok { serviceAccount := (config.getField "serviceAccount").asString
          apiKey := (config.getField "apiKey").asString
          uid := (config.getField "uid").asString }

/-- `FirebaseAuthProvider.createAuthData` (src/providers/firebase.ts):
payload shaping.  `now` is the single `Date.now()` read taken at the top of
the function. -/
def FirebaseAuthProvider.createAuthData (uid apiKey : String)
    (tokenResponse : FirebaseTokenResponse) (userRecord : UserRecord)
    (now : Int) : AuthData :=
  let expiresIn : Option Int := (parseIntBase10 tokenResponse.expiresIn).map (· * 1000)
  { fbase_key := "firebase:authUser:" ++ apiKey ++ ":[DEFAULT]"
    value :=
      { uid := uid
        email := jsStringOrNull userRecord.email
        emailVerified := userRecord.emailVerified
        isAnonymous := false
        providerData := userRecord.providerData.map (fun provider =>
          { providerId := provider.providerId
            uid := provider.uid
            displayName := jsStringOrNull provider.displayName
            email := jsStringOrNull provider.email
            phoneNumber := jsStringOrNull provider.phoneNumber
            photoURL := jsStringOrNull provider.photoURL })
        stsTokenManager :=
          { accessToken := tokenResponse.idToken
            refreshToken := tokenResponse.refreshToken
            expirationTime := expiresIn.map (fun e => now + e) }
        createdAt :=
          match userRecord.metadata.creationTimeMs with
          | some m => toString m
          | none => toString now
        lastLoginAt := toString now
        apiKey := apiKey
        appName := "[DEFAULT]" } }

/-- The observable outcome of the `fetch` call in `exchangeCustomToken`:
a transport-level rejection, or an HTTP response with its status, body text,
and the result of `response.json()` (`.error` = body does not parse). -/
inductive FetchResult where
  | netError (message : String)
  | httpResponse (status : Nat) (body : String)
      (json : Except String FirebaseTokenResponse)

/-- `FirebaseAuthProvider.exchangeCustomToken` (src/providers/firebase.ts):
a non-ok response (`response.ok` is status 200–299 per the fetch spec) raises
`TokenExchangeError` with the body and the exact status; a transport failure
or an unparsable body is caught and re-raised as `TokenExchangeError` with no
status (the `instanceof` guard rethrows the non-ok error unchanged). -/
def FirebaseAuthProvider.exchangeCustomToken (r : FetchResult) :
    Except AuthErr FirebaseTokenResponse :=
  match r with
  | .netError msg =>
      .error (.tokenExchangeFailed ("Token exchange request failed: " ++ msg) none)
  | .httpResponse status body json =>
      if 200 ≤ status ∧ status ≤ 299 then
        match json with
        | .ok data => .ok data
        | .error msg =>
            .error (.tokenExchangeFailed ("Token exchange request failed: " ++ msg) none)
      else
        .error (.tokenExchangeFailed ("Firebase REST API error: " ++ body) (some status))

/-- `FirebaseAuthProvider.initializeAdmin` with the module-level
`adminInitialized` flag passed in and returned.  `initOutcome` is the outcome
of `JSON.parse` + `admin.credential.cert` + `admin.initializeApp`; it is not
consulted when the flag is already set (the guard returns first). -/
def FirebaseAuthProvider.initializeAdmin (adminInitialized : Bool)
    (initOutcome : Except String Unit) : Except AuthErr Unit × Bool :=
  if adminInitialized then (.ok (), true)
  else
    match initOutcome with
    | .ok _ => (.ok (), true)
    | .error msg =>
        (.error (.authenticationFailed
          ("Failed to initialize Firebase Admin SDK: " ++ msg)), false)

/-- `resetAdminInitialization` (src/providers/firebase.ts): clears the flag. -/
def resetAdminInitialization (_adminInitialized : Bool) : Bool := false

/-- `FirebaseAuthProvider.createCustomToken`: wraps a failed
`admin.auth().createCustomToken(uid)` in an `AuthenticationError` naming the
UID. -/
def FirebaseAuthProvider.createCustomToken (uid : String)
    (mintOutcome : Except String String) : Except AuthErr String :=
  match mintOutcome with
  | .ok tok => .ok tok
  | .error msg =>
      .error (.authenticationFailed
        ("Failed to create custom token (UID: " ++ uid ++ "): " ++ msg))

/-- `FirebaseAuthProvider.getUserRecord`: wraps a failed
`admin.auth().getUser(uid)` in an `AuthenticationError` naming the UID. -/
def FirebaseAuthProvider.getUserRecord (uid : String)
    (lookupOutcome : Except String UserRecord) : Except AuthErr UserRecord :=
  match lookupOutcome with
  | .ok u => .ok u
  | .error msg =>
      .error (.authenticationFailed
        ("Failed to get user info (UID: " ++ uid ++ "): " ++ msg))

/-- The outcomes of the external calls one `inject` run can make, in pipeline
order, plus the `Date.now()` read of payload shaping.  A failing step's model
never consults the later fields (the source never issues the later calls). -/
structure PipelineEnv where
  adminInitOutcome : Except String Unit
  mintOutcome : Except String String
  fetchResult : FetchResult
  userLookupOutcome : Except String UserRecord
  addInitScriptOutcome : Except String Unit
  gotoOutcome : Except String Unit
  now : Int

/-- What one `inject` run leaves behind: its result (normal return or the
raised `AuthError`), the module-level `adminInitialized` flag, and the
payload registered via `page.addInitScript` (`none` when registration was
never reached or itself failed). -/
structure InjectOutcome where
  result : Except AuthErr Unit
  adminInitializedAfter : Bool
  registeredScript : Option AuthData
  deriving Repr

/-- `FirebaseAuthProvider.inject` (src/providers/firebase.ts): the five-step
pipeline, strictly sequential, each step short-circuiting the rest on
failure.  A `page.goto` failure is swallowed (non-fatal), so
`env.gotoOutcome` does not affect the outcome; the trailing
`page.waitForTimeout` is a sleep with no observable effect here. -/
def FirebaseAuthProvider.inject (adminInitialized : Bool)
    (config : FirebaseConfig) (env : PipelineEnv) : InjectOutcome :=
  match FirebaseAuthProvider.initializeAdmin adminInitialized env.adminInitOutcome with
  | (.error e, st) => { result := .error e, adminInitializedAfter := st, registeredScript := none }
  | (.ok _, st) =>
    match FirebaseAuthProvider.createCustomToken config.uid env.mintOutcome with
    | .error e => { result := .error e, adminInitializedAfter := st, registeredScript := none }
    | .ok _customToken =>
      match FirebaseAuthProvider.exchangeCustomToken env.fetchResult with
      | .error e => { result := .error e, adminInitializedAfter := st, registeredScript := none }
      | .ok tokenResponse =>
        match FirebaseAuthProvider.getUserRecord config.uid env.userLookupOutcome with
        | .error e => { result := .error e, adminInitializedAfter := st, registeredScript := none }
        | .ok userRecord =>
          let authData := FirebaseAuthProvider.createAuthData
            config.uid config.apiKey tokenResponse userRecord env.now
          match env.addInitScriptOutcome with
          | .error msg =>
            { result := .error (.injectionFailed
                ("Failed to add IndexedDB injection script: " ++ msg))
              adminInitializedAfter := st
              registeredScript := none }
          | .ok _ =>
            { result := .ok ()
              adminInitializedAfter := st
              registeredScript := some authData }

/-- A JS object used as a record of named fields (a provider's config
sub-object, a profile override). -/
abbrev JSRecord := List (String × JSValue)

/-- Object spread `{ ...base, ...ov }`: a fresh object whose keys are the
base's keys not overridden, then the override's keys, override values
winning. -/
def jsSpread2 (base ov : JSRecord) : JSRecord :=
  base.filter (fun p => (assocLookup ov p.1).isNone) ++ ov

/-- The loaded `AuthConfig` as `injectAuth` consumes it, with the provider
sub-configs kept as raw JS records so field-level effects of the profile
merge are observable.  `provider` is the runtime string (the static type
narrows it to the two known tags, but the registry lookup guards the general
case). -/
structure AuthConfigR where
  provider : String
  firebase : Option JSRecord
  supabase : Option JSRecord
  profiles : Option (List (String × JSRecord))
  debug : Option Bool

/-- `InjectAuthOptions` of src/types.ts. -/
structure InjectAuthOptionsR where
  profile : Option String
  waitAfter : Option Int

/-- The config-resolution prefix of `injectAuth` (src/index.ts, registry
revision): select the provider from the static registry, require its config
sub-object, then apply the named profile override — only to the selected
provider's sub-object, and only when `options.profile` is truthy and names an
existing profile.  Returns the effective provider config handed to
`provider.inject`. -/
def injectAuthSelect (config : AuthConfigR) (options : InjectAuthOptionsR) :
    Except ThrownError JSRecord :=
  match getProvider config.provider with
  | .error e => .error e
  | .ok p =>
    let providerConfig : Option JSRecord :=
      match p with
      | .firebase => config.firebase
      | .supabase => config.supabase
    match providerConfig with
    | none =>
        .error (.auth (.configInvalid (config.provider ++ " config is required")
          (some config.provider)))
    | some pc =>
      let eff : JSRecord :=
        match options.profile with
        | some prof =>
          if prof.isEmpty then pc
          else
            match config.profiles.bind (fun ps => assocLookup ps prof) with
            | some ov => jsSpread2 pc ov
            | none => pc
        | none => pc
      .ok eff

/-- `CONFIG_FILE_NAMES` of src/config.ts: the fixed ordered candidate list. -/
def CONFIG_FILE_NAMES : List String :=
  ["playwright-auth.config.ts", "playwright-auth.config.js", "playwright-auth.config.mjs"]

/-- `path.resolve(cwd, fileName)` for an absolute `cwd` (the only way
src/config.ts calls it): join with a separator. -/
def resolvePath (cwd fileName : String) : String := cwd ++ "/" ++ fileName

/-- The loop body of `findConfigPath`: first candidate whose resolved path
exists. -/
def findConfigPathAux (fileExists : String → Bool) (cwd : String) :
    List String → Option String
  | [] => none
  | fileName :: rest =>
    let fullPath := resolvePath cwd fileName
    if fileExists fullPath then some fullPath
    else findConfigPathAux fileExists cwd rest

/-- `findConfigPath` (src/config.ts), with `existsSync` passed in as the
filesystem oracle. -/
def findConfigPath (fileExists : String → Bool) (cwd : String) : Option String :=
  findConfigPathAux fileExists cwd CONFIG_FILE_NAMES

/-- `validateFirebaseConfig` of src/config.ts (same guards as the provider's
`validateConfig`, Japanese messages, assertion-style: no value returned). -/
def Config.validateFirebaseConfig (firebase : JSValue) : Except AuthErr Unit :=
  if !firebase.truthy || firebase.typeName != "object" then
    .error (.configInvalid "firebase 設定が必要です" (some "firebase"))
  else
    let sa := firebase.getField "serviceAccount"
    if !sa.truthy || sa.typeName != "string" then
      .error (.configInvalid "serviceAccount は文字列である必要があります"
        (some "firebase.serviceAccount"))
    else
      let ak := firebase.getField "apiKey"
      if !ak.truthy || ak.typeName != "string" then
        .error (.configInvalid "apiKey は文字列である必要があります" (some "firebase.apiKey"))
      else
        let u := firebase.getField "uid"
        if !u.truthy || u.typeName != "string" then
          .error (.configInvalid "uid は文字列である必要があります" (some "firebase.uid"))
        else .ok ()

/-- `validateSupabaseConfig` of src/config.ts. -/
def Config.validateSupabaseConfig (supabase : JSValue) : Except AuthErr Unit :=
  if !supabase.truthy || supabase.typeName != "object" then
    .error (.configInvalid "supabase 設定が必要です" (some "supabase"))
  else
    let url := supabase.getField "url"
    if !url.truthy || url.typeName != "string" then
      .error (.configInvalid "url は文字列である必要があります" (some "supabase.url"))
    else
      let ak := supabase.getField "anonKey"
      if !ak.truthy || ak.typeName != "string" then
        .error (.configInvalid "anonKey は文字列である必要があります" (some "supabase.anonKey"))
      else
        let em := supabase.getField "email"
        if !em.truthy || em.typeName != "string" then
          .error (.configInvalid "email は文字列である必要があります" (some "supabase.email"))
        else
          let pw := supabase.getField "password"
          if !pw.truthy || pw.typeName != "string" then
            .error (.configInvalid "password は文字列である必要があります"
              (some "supabase.password"))
          else .ok ()

/-- `validateConfig` of src/config.ts: object guard, required `provider`
tag restricted to the two known names, then the selected provider's block. -/
def Config.validateConfig (config : JSValue) : Except AuthErr Unit :=
  if !config.truthy || config.typeName != "object" then
    .error (.configInvalid "設定はオブジェクトである必要があります" none)
  else
    let p := config.getField "provider"
    if !p.truthy then
      .error (.configInvalid "provider は必須です" (some "provider"))
    else if !(p.isStr "firebase") && !(p.isStr "supabase") then
      .error (.configInvalid
        ("provider は 'firebase' または 'supabase' である必要があります。受け取った値: " ++ p.display)
        (some "provider"))
    else if p.isStr "firebase" then
      Config.validateFirebaseConfig (config.getField "firebase")
    else
      Config.validateSupabaseConfig (config.getField "supabase")

/-- The effectful boundary of `loadConfig`: `existsSync`, and the dynamic
`import` of a candidate path yielding its default export (or a thrown
non-`AuthError` failure message). -/
structure LoadEnv where
  fileExists : String → Bool
  importDefault : String → Except String JSValue

/-- `loadConfig` (src/config.ts) with the module-level `cachedConfig` passed
in and returned.  A populated cache is returned at once (no discovery, no
import, no validation — `cwd` and the filesystem are not consulted); no
candidate existing raises `ConfigNotFoundError` with every resolved path; a
failed import is wrapped as a field-less `ConfigInvalidError`; a validation
failure is rethrown as-is; only a validated config is cached. -/
def loadConfig (cachedConfig : Option JSValue) (env : LoadEnv) (cwd : String) :
    Except AuthErr JSValue × Option JSValue :=
  match cachedConfig with
  | some c => (.ok c, some c)
  | none =>
    match findConfigPath env.fileExists cwd with
    | none =>
        (.error (.configNotFound (CONFIG_FILE_NAMES.map (resolvePath cwd))), none)
    | some configPath =>
      match env.importDefault configPath with
      | .error msg =>
          (.error (.configInvalid ("設定ファイルの読み込みに失敗しました: " ++ msg) none), none)
      | .ok config =>
        match Config.validateConfig config with
        | .error e => (.error e, none)
        | .ok _ => (.ok config, some config)

/-- `clearConfigCache` (src/config.ts). -/
def clearConfigCache (_cachedConfig : Option JSValue) : Option JSValue := none

theorem assocLookup_append {α : Type} (l₁ l₂ : List (String × α)) (k : String) :
    assocLookup (l₁ ++ l₂) k =
      match assocLookup l₁ k with
      | some v => some v
      | none => assocLookup l₂ k := by
  induction l₁ with
  | nil => simp [assocLookup]
  | cons hd tl ih =>
    by_cases h : hd.1 = k
    · simp [assocLookup, h]
    · simpa [assocLookup, h] using ih

theorem assocLookup_filter_shadowed (base ov : JSRecord) (k : String) :
    assocLookup (base.filter (fun p => (assocLookup ov p.1).isNone)) k =
      if (assocLookup ov k).isSome then none else assocLookup base k := by
  induction base with
  | nil => simp [assocLookup]
  | cons hd tl ih =>
    by_cases hk : hd.1 = k
    · cases hov : assocLookup ov k with
      | some w => simp [List.filter, assocLookup, hk, hov, ih]
      | none => simp [List.filter, assocLookup, hk, hov]
    · cases hov : assocLookup ov hd.1 with
      | some w => simpa [List.filter, assocLookup, hk, hov] using ih
      | none => simpa [List.filter, assocLookup, hk, hov] using ih

theorem jsSpread2_get (base ov : JSRecord) (k : String) :
    assocLookup (jsSpread2 base ov) k =
      match assocLookup ov k with
      | some v => some v
      | none => assocLookup base k := by
  unfold jsSpread2
  rw [assocLookup_append, assocLookup_filter_shadowed]
  cases h : assocLookup ov k
  · cases assocLookup base k <;> simp
  · simp

theorem jsGuard_iff (v : JSValue) (t : String) :
    ((!v.truthy || v.typeName != t) = true) ↔ (v.truthy = false ∨ v.typeName ≠ t) := by
  simp [Bool.or_eq_true, Bool.not_eq_true', bne_iff_ne]

theorem jsGuard_false_iff (v : JSValue) (t : String) :
    ((!v.truthy || v.typeName != t) = false) ↔ (v.truthy = true ∧ v.typeName = t) := by
  simp [Bool.or_eq_false_iff, Bool.not_eq_false', bne_eq_false_iff_eq]

theorem typeName_string_iff (v : JSValue) :
    v.typeName = "string" ↔ ∃ s, v = .str s := by
  cases v <;> simp [JSValue.typeName]

/-- C1: for every successful Firebase pipeline run, the storage payload's
`stsTokenManager.expirationTime` equals the single `Date.now()` read of
payload shaping plus `parseInt(expiresIn, 10) * 1000`, and its `accessToken`
equals the exchange response's `idToken`; with the scenario-A mocks
(`expiresIn = "3600"`, `idToken = "T"`, profile email `a@b.com`) the payload
has `expirationTime = issuedAtMs + 3600000`, `accessToken = "T"`, and
`email = "a@b.com"`. -/
theorem C1_expirationTime_payload :
    ∀ (uid apiKey : String) (tok : FirebaseTokenResponse) (user : UserRecord) (now : Int),
      ((FirebaseAuthProvider.createAuthData uid apiKey tok user now).value.stsTokenManager.expirationTime
          = (parseIntBase10 tok.expiresIn).map (fun k => now + k * 1000))
      ∧ ((FirebaseAuthProvider.createAuthData uid apiKey tok user now).value.stsTokenManager.accessToken
          = tok.idToken)
      ∧ ((FirebaseAuthProvider.createAuthData "u1" apiKey
            { idToken := "T", refreshToken := "R", expiresIn := "3600" }
            { uid := "u1", email := some "a@b.com", emailVerified := true,
              providerData := [], metadata := { creationTimeMs := none } }
            now).value.stsTokenManager.expirationTime = some (now + 3600000))
      ∧ ((FirebaseAuthProvider.createAuthData "u1" apiKey
            { idToken := "T", refreshToken := "R", expiresIn := "3600" }
            { uid := "u1", email := some "a@b.com", emailVerified := true,
              providerData := [], metadata := { creationTimeMs := none } }
            now).value.stsTokenManager.accessToken = "T")
      ∧ ((FirebaseAuthProvider.createAuthData "u1" apiKey
            { idToken := "T", refreshToken := "R", expiresIn := "3600" }
            { uid := "u1", email := some "a@b.com", emailVerified := true,
              providerData := [], metadata := { creationTimeMs := none } }
            now).value.email = some "a@b.com") := by
  intro uid apiKey tok user now
  refine ⟨?_, rfl, ?_, rfl, rfl⟩
  · cases h : parseIntBase10 tok.expiresIn <;>
      simp [FirebaseAuthProvider.createAuthData, h]
  · have h36 : parseIntBase10 "3600" = some 3600 := rfl
    simp [FirebaseAuthProvider.createAuthData, h36]

/-- C2: the IndexedDB storage key produced by payload shaping is exactly
`firebase:authUser:<apiKey>:[DEFAULT]` for every principal uid, token
response, user record and issuance instant; two runs with the same apiKey
and different principals produce identical keys. -/
theorem C2_storage_key :
    ∀ (uid apiKey : String) (tok : FirebaseTokenResponse) (user : UserRecord) (now : Int)
      (uid2 : String) (tok2 : FirebaseTokenResponse) (user2 : UserRecord) (now2 : Int),
      ((FirebaseAuthProvider.createAuthData uid apiKey tok user now).fbase_key
          = "firebase:authUser:" ++ apiKey ++ ":[DEFAULT]")
      ∧ ((FirebaseAuthProvider.createAuthData uid apiKey tok user now).fbase_key
          = (FirebaseAuthProvider.createAuthData uid2 apiKey tok2 user2 now2).fbase_key) := by
  intro uid apiKey tok user now uid2 tok2 user2 now2
  exact ⟨rfl, rfl⟩

/-- C10: a failed admin-SDK initialization raises `AuthenticationFailed` and
leaves the process-wide `adminInitialized` flag false (so a later `inject`
re-attempts and succeeds once the outcome is good); once the flag is set,
`initializeAdmin` returns immediately — whatever the would-be outcome —
until `resetAdminInitialization` clears the flag. -/
theorem C10_admin_init_flag :
    ∀ (msg : String) (outcome : Except String Unit) (config : FirebaseConfig)
      (env : PipelineEnv) (b : Bool),
      (FirebaseAuthProvider.initializeAdmin false (.error msg)
          = (.error (.authenticationFailed ("Failed to initialize Firebase Admin SDK: " ++ msg)),
             false))
      ∧ (FirebaseAuthProvider.initializeAdmin false (.ok ()) = (.ok (), true))
      ∧ (FirebaseAuthProvider.initializeAdmin true outcome = (.ok (), true))
      ∧ (resetAdminInitialization b = false)
      ∧ ((FirebaseAuthProvider.inject false config
            { env with adminInitOutcome := .error msg }).adminInitializedAfter = false)
      ∧ ((FirebaseAuthProvider.inject false config
            { env with adminInitOutcome := .error msg }).result
          = .error (.authenticationFailed ("Failed to initialize Firebase Admin SDK: " ++ msg))) := by
  intro msg outcome config env b
  refine ⟨rfl, rfl, rfl, rfl, ?_, ?_⟩ <;>
    simp [FirebaseAuthProvider.inject, FirebaseAuthProvider.initializeAdmin]

theorem jsString_of_guard_false (v : JSValue)
    (h : (!v.truthy || v.typeName != "string") = false) :
    v = .str v.asString ∧ v.asString ≠ "" := by
  obtain ⟨ht, hn⟩ := (jsGuard_false_iff v "string").mp h
  obtain ⟨s, rfl⟩ := (typeName_string_iff v).mp hn
  refine ⟨rfl, ?_⟩
  intro hs
  rw [show JSValue.asString (.str s) = s from rfl] at hs
  subst hs
  exact absurd ht (by decide)

/-- C3: a raw Firebase config that is not an object, or misses one of
`serviceAccount`, `apiKey`, `uid`, or holds one of them as a non-string,
is rejected by `FirebaseAuthProvider.validateConfig` with a `ConfigInvalid`
error naming the offending field by its dotted path; every error it raises
is a `ConfigInvalid` with a field path, and a success returns exactly the
three validated, non-empty string fields — never a partial config. -/
theorem C3_validateConfig_spec :
    ∀ raw : JSValue,
      ((raw.truthy = false ∨ raw.typeName ≠ "object") →
        FirebaseAuthProvider.validateConfig raw
          = .error (.configInvalid "firebase config is required" (some "firebase")))
      ∧ (raw.truthy = true → raw.typeName = "object" →
          ((raw.getField "serviceAccount").truthy = false ∨
            (raw.getField "serviceAccount").typeName ≠ "string") →
          FirebaseAuthProvider.validateConfig raw
            = .error (.configInvalid "serviceAccount must be a string"
                (some "firebase.serviceAccount")))
      ∧ (raw.truthy = true → raw.typeName = "object" →
          (raw.getField "serviceAccount").truthy = true →
          (raw.getField "serviceAccount").typeName = "string" →
          ((raw.getField "apiKey").truthy = false ∨
            (raw.getField "apiKey").typeName ≠ "string") →
          FirebaseAuthProvider.validateConfig raw
            = .error (.configInvalid "apiKey must be a string" (some "firebase.apiKey")))
      ∧ (raw.truthy = true → raw.typeName = "object" →
          (raw.getField "serviceAccount").truthy = true →
          (raw.getField "serviceAccount").typeName = "string" →
          (raw.getField "apiKey").truthy = true →
          (raw.getField "apiKey").typeName = "string" →
          ((raw.getField "uid").truthy = false ∨
            (raw.getField "uid").typeName ≠ "string") →
          FirebaseAuthProvider.validateConfig raw
            = .error (.configInvalid "uid must be a string" (some "firebase.uid")))
      ∧ (∀ e, FirebaseAuthProvider.validateConfig raw = .error e →
          ∃ m f, e = .configInvalid m (some f))
      ∧ (∀ cfg, FirebaseAuthProvider.validateConfig raw = .ok cfg →
          raw.getField "serviceAccount" = .str cfg.serviceAccount
          ∧ raw.getField "apiKey" = .str cfg.apiKey
          ∧ raw.getField "uid" = .str cfg.uid
          ∧ cfg.serviceAccount ≠ "" ∧ cfg.apiKey ≠ "" ∧ cfg.uid ≠ "") := by
  intro raw
  by_cases h0 : (!raw.truthy || raw.typeName != "object") = true
  case pos =>
    have hv : FirebaseAuthProvider.validateConfig raw
        = .error (.configInvalid "firebase config is required" (some "firebase")) := by
      unfold FirebaseAuthProvider.validateConfig
      rw [if_pos h0]
    have h0' := (jsGuard_iff raw "object").mp h0
    refine ⟨fun _ => hv, ?_, ?_, ?_, ?_, ?_⟩
    · intro ht ho _
      exact absurd h0' (by simp [ht, ho])
    · intro ht ho _ _ _
      exact absurd h0' (by simp [ht, ho])
    · intro ht ho _ _ _ _ _
      exact absurd h0' (by simp [ht, ho])
    · intro e he
      rw [hv] at he
      injection he with h
      exact ⟨_, _, h.symm⟩
    · intro cfg hc
      rw [hv] at hc
      simp at hc
  case neg =>
    by_cases h1 : (!(raw.getField "serviceAccount").truthy
        || (raw.getField "serviceAccount").typeName != "string") = true
    case pos =>
      have hv : FirebaseAuthProvider.validateConfig raw
          = .error (.configInvalid "serviceAccount must be a string"
              (some "firebase.serviceAccount")) := by
        unfold FirebaseAuthProvider.validateConfig
        rw [if_neg h0, if_pos h1]
      have h1' := (jsGuard_iff (raw.getField "serviceAccount") "string").mp h1
      refine ⟨?_, fun _ _ _ => hv, ?_, ?_, ?_, ?_⟩
      · intro hbad
        exact absurd hbad ((jsGuard_iff raw "object").not.mp h0)
      · intro _ _ hst hsn _
        exact absurd h1' (by simp [hst, hsn])
      · intro _ _ hst hsn _ _ _
        exact absurd h1' (by simp [hst, hsn])
      · intro e he
        rw [hv] at he
        injection he with h
        exact ⟨_, _, h.symm⟩
      · intro cfg hc
        rw [hv] at hc
        simp at hc
    case neg =>
      by_cases h2 : (!(raw.getField "apiKey").truthy
          || (raw.getField "apiKey").typeName != "string") = true
      case pos =>
        have hv : FirebaseAuthProvider.validateConfig raw
            = .error (.configInvalid "apiKey must be a string" (some "firebase.apiKey")) := by
          unfold FirebaseAuthProvider.validateConfig
          rw [if_neg h0, if_neg h1, if_pos h2]
        have h2' := (jsGuard_iff (raw.getField "apiKey") "string").mp h2
        refine ⟨?_, ?_, fun _ _ _ _ _ => hv, ?_, ?_, ?_⟩
        · intro hbad
          exact absurd hbad ((jsGuard_iff raw "object").not.mp h0)
        · intro _ _ hbad
          exact absurd hbad
            ((jsGuard_iff (raw.getField "serviceAccount") "string").not.mp h1)
        · intro _ _ _ _ hkt hkn _
          exact absurd h2' (by simp [hkt, hkn])
        · intro e he
          rw [hv] at he
          injection he with h
          exact ⟨_, _, h.symm⟩
        · intro cfg hc
          rw [hv] at hc
          simp at hc
      case neg =>
        by_cases h3 : (!(raw.getField "uid").truthy
            || (raw.getField "uid").typeName != "string") = true
        case pos =>
          have hv : FirebaseAuthProvider.validateConfig raw
              = .error (.configInvalid "uid must be a string" (some "firebase.uid")) := by
            unfold FirebaseAuthProvider.validateConfig
            rw [if_neg h0, if_neg h1, if_neg h2, if_pos h3]
          refine ⟨?_, ?_, ?_, fun _ _ _ _ _ _ _ => hv, ?_, ?_⟩
          · intro hbad
            exact absurd hbad ((jsGuard_iff raw "object").not.mp h0)
          · intro _ _ hbad
            exact absurd hbad
              ((jsGuard_iff (raw.getField "serviceAccount") "string").not.mp h1)
          · intro _ _ _ _ hbad
            exact absurd hbad
              ((jsGuard_iff (raw.getField "apiKey") "string").not.mp h2)
          · intro e he
            rw [hv] at he
            injection he with h
            exact ⟨_, _, h.symm⟩
          · intro cfg hc
            rw [hv] at hc
            simp at hc
        case neg =>
          have hv : FirebaseAuthProvider.validateConfig raw
              = .ok { serviceAccount := (raw.getField "serviceAccount").asString
                      apiKey := (raw.getField "apiKey").asString
                      uid := (raw.getField "uid").asString } := by
            unfold FirebaseAuthProvider.validateConfig
            rw [if_neg h0, if_neg h1, if_neg h2, if_neg h3]
          obtain ⟨hsa, hsa0⟩ :=
            jsString_of_guard_false (raw.getField "serviceAccount") (Bool.of_not_eq_true h1)
          obtain ⟨hak, hak0⟩ :=
            jsString_of_guard_false (raw.getField "apiKey") (Bool.of_not_eq_true h2)
          obtain ⟨hu, hu0⟩ :=
            jsString_of_guard_false (raw.getField "uid") (Bool.of_not_eq_true h3)
          refine ⟨?_, ?_, ?_, ?_, ?_, ?_⟩
          · intro hbad
            exact absurd hbad ((jsGuard_iff raw "object").not.mp h0)
          · intro _ _ hbad
            exact absurd hbad
              ((jsGuard_iff (raw.getField "serviceAccount") "string").not.mp h1)
          · intro _ _ _ _ hbad
            exact absurd hbad
              ((jsGuard_iff (raw.getField "apiKey") "string").not.mp h2)
          · intro _ _ _ _ _ _ hbad
            exact absurd hbad
              ((jsGuard_iff (raw.getField "uid") "string").not.mp h3)
          · intro e he
            rw [hv] at he
            simp at he
          · intro cfg hc
            rw [hv] at hc
            injection hc with h
            subst h
            exact ⟨hsa, hak, hu, hsa0, hak0, hu0⟩

/-- C3 witness: a config missing `apiKey` is rejected naming
`firebase.apiKey`; a fully valid config is accepted with exactly the three
string fields. -/
theorem C3_validateConfig_witness :
    FirebaseAuthProvider.validateConfig
        (.obj [("serviceAccount", .str "sa"), ("uid", .str "u1")])
      = .error (.configInvalid "apiKey must be a string" (some "firebase.apiKey"))
    ∧ FirebaseAuthProvider.validateConfig
        (.obj [("serviceAccount", .str "sa"), ("apiKey", .str "k"), ("uid", .str "u1")])
      = .ok { serviceAccount := "sa", apiKey := "k", uid := "u1" } := by
  constructor
  · exact (C3_validateConfig_spec
        (.obj [("serviceAccount", .str "sa"), ("uid", .str "u1")])).2.2.1
      rfl rfl rfl rfl (Or.inl rfl)
  · rfl

/-- C4: a non-2xx exchange response raises `TokenExchangeFailed` carrying the
exact observed HTTP status and the response body in the message; a
transport-level failure or an unparsable response body raises
`TokenExchangeFailed` with no status code; `exchangeCustomToken` never
raises any other error kind. -/
theorem C4_exchange_errors :
    ∀ (status : Nat) (body : String) (json : Except String FirebaseTokenResponse)
      (msg : String),
      (¬(200 ≤ status ∧ status ≤ 299) →
        FirebaseAuthProvider.exchangeCustomToken (.httpResponse status body json)
          = .error (.tokenExchangeFailed ("Firebase REST API error: " ++ body)
              (some status)))
      ∧ (FirebaseAuthProvider.exchangeCustomToken (.netError msg)
          = .error (.tokenExchangeFailed ("Token exchange request failed: " ++ msg) none))
      ∧ ((200 ≤ status ∧ status ≤ 299) →
          FirebaseAuthProvider.exchangeCustomToken (.httpResponse status body (.error msg))
            = .error (.tokenExchangeFailed ("Token exchange request failed: " ++ msg) none))
      ∧ (∀ (r : FetchResult) (e : AuthErr),
          FirebaseAuthProvider.exchangeCustomToken r = .error e →
          ∃ m sc, e = .tokenExchangeFailed m sc) := by
  intro status body json msg
  have hred : ∀ (st : Nat) (bd : String) (js : Except String FirebaseTokenResponse),
      FirebaseAuthProvider.exchangeCustomToken (.httpResponse st bd js)
        = (if 200 ≤ st ∧ st ≤ 299 then
             match js with
             | .ok data => .ok data
             | .error m =>
                 .error (.tokenExchangeFailed ("Token exchange request failed: " ++ m) none)
           else
             .error (.tokenExchangeFailed ("Firebase REST API error: " ++ bd) (some st))) :=
    fun _ _ _ => rfl
  refine ⟨?_, rfl, ?_, ?_⟩
  · intro h
    rw [hred, if_neg h]
  · intro h
    rw [hred, if_pos h]
  · intro r e he
    match r with
    | .netError m =>
      exact ⟨_, _, (Except.error.inj he).symm⟩
    | .httpResponse st bd js =>
      rw [hred] at he
      by_cases hok : 200 ≤ st ∧ st ≤ 299
      · rw [if_pos hok] at he
        match js with
        | .ok data => exact Except.noConfusion he
        | .error m => exact ⟨_, _, (Except.error.inj he).symm⟩
      · rw [if_neg hok] at he
        exact ⟨_, _, (Except.error.inj he).symm⟩

/-- C4 witness: a 404 response with body `nope` raises `TokenExchangeFailed`
with status 404; a transport failure and an unparsable 200 body raise it
with no status. -/
theorem C4_exchange_errors_witness :
    (FirebaseAuthProvider.exchangeCustomToken (.httpResponse 404 "nope" (.error "x"))
        = .error (.tokenExchangeFailed ("Firebase REST API error: " ++ "nope") (some 404)))
    ∧ (FirebaseAuthProvider.exchangeCustomToken (.netError "ECONNREFUSED")
        = .error (.tokenExchangeFailed ("Token exchange request failed: " ++ "ECONNREFUSED") none))
    ∧ (FirebaseAuthProvider.exchangeCustomToken
          (.httpResponse 200 "broken" (.error "Unexpected end of JSON input"))
        = .error (.tokenExchangeFailed
            ("Token exchange request failed: " ++ "Unexpected end of JSON input") none)) :=
  ⟨(C4_exchange_errors 404 "nope" (.error "x") "x").1 (by decide),
   (C4_exchange_errors 404 "nope" (.error "x") "ECONNREFUSED").2.1,
   (C4_exchange_errors 200 "broken" (.error "u") "Unexpected end of JSON input").2.2.1 (by decide)⟩

/-- C7: looking up a provider name that is not registered in the static
registry fails with a plain unknown-provider `Error`, which is distinct from
every domain `AuthError` kind. -/
theorem C7_unknown_provider :
    ∀ name : String, name ≠ "firebase" → name ≠ "supabase" →
      getProvider name = .error (.plain ("Unknown provider: " ++ name))
      ∧ (∀ e : AuthErr, getProvider name ≠ .error (.auth e)) := by
  intro name h1 h2
  have hv : getProvider name = .error (.plain ("Unknown provider: " ++ name)) := by
    unfold getProvider
    rw [if_neg h1, if_neg h2]
  refine ⟨hv, ?_⟩
  intro e he
  rw [hv] at he
  simp at he

/-- C7 witness: the name `auth0` is not registered; its lookup error is the
plain unknown-provider error and differs from every domain kind. -/
theorem C7_unknown_provider_witness :
    getProvider "auth0" = .error (.plain ("Unknown provider: " ++ "auth0"))
    ∧ (∀ e : AuthErr, getProvider "auth0" ≠ .error (.auth e)) :=
  C7_unknown_provider "auth0" (by decide) (by decide)

/-- C5: applying a named profile override present in the loaded config
yields an effective provider config whose fields are the override's where
the override names them and the active provider's everywhere else, and the
override computation never touches (nor depends on) the config of the
provider that is not currently selected. -/
theorem C5_profile_override :
    ∀ (config : AuthConfigR) (options : InjectAuthOptionsR) (prof : String)
      (ov pc : JSRecord),
      options.profile = some prof →
      prof.isEmpty = false →
      config.profiles.bind (fun ps => assocLookup ps prof) = some ov →
      ((config.provider = "firebase" → config.firebase = some pc →
          (injectAuthSelect config options = .ok (jsSpread2 pc ov)
           ∧ (∀ k, assocLookup (jsSpread2 pc ov) k
                = match assocLookup ov k with
                  | some v => some v
                  | none => assocLookup pc k)
           ∧ (∀ s2, injectAuthSelect { config with supabase := s2 } options
                 = injectAuthSelect config options)))
       ∧ (config.provider = "supabase" → config.supabase = some pc →
          (injectAuthSelect config options = .ok (jsSpread2 pc ov)
           ∧ (∀ k, assocLookup (jsSpread2 pc ov) k
                = match assocLookup ov k with
                  | some v => some v
                  | none => assocLookup pc k)
           ∧ (∀ f2, injectAuthSelect { config with firebase := f2 } options
                 = injectAuthSelect config options)))) := by
  intro config options prof ov pc hpo hpe hlk
  constructor
  · intro hp hf
    have hgp : getProvider config.provider = .ok .firebase := by
      rw [hp]; rfl
    refine ⟨?_, fun k => jsSpread2_get pc ov k, ?_⟩
    · simp only [injectAuthSelect, hgp, hf, hpo, hpe, hlk, Bool.false_eq_true,
        if_false]
    · intro s2
      simp only [injectAuthSelect, hgp, hf, hpo, hpe, hlk, Bool.false_eq_true,
        if_false]
  · intro hp hs
    have hgp : getProvider config.provider = .ok .supabase := by
      rw [hp]; rfl
    refine ⟨?_, fun k => jsSpread2_get pc ov k, ?_⟩
    · simp only [injectAuthSelect, hgp, hs, hpo, hpe, hlk, Bool.false_eq_true,
        if_false]
    · intro f2
      simp only [injectAuthSelect, hgp, hs, hpo, hpe, hlk, Bool.false_eq_true,
        if_false]

/-- C5 witness: with the `admin` profile overriding only `uid`, the
effective Firebase config takes the override's `uid` and keeps every other
field of the active config; the supabase sub-config plays no part. -/
theorem C5_profile_override_witness :
    injectAuthSelect
        { provider := "firebase",
          firebase := some [("serviceAccount", JSValue.str "sa"),
            ("apiKey", JSValue.str "k"), ("uid", JSValue.str "u1")],
          supabase := none,
          profiles := some [("admin", [("uid", JSValue.str "admin-uid")])],
          debug := none }
        { profile := some "admin", waitAfter := none }
      = .ok (jsSpread2
          [("serviceAccount", JSValue.str "sa"), ("apiKey", JSValue.str "k"),
            ("uid", JSValue.str "u1")]
          [("uid", JSValue.str "admin-uid")])
    ∧ assocLookup (jsSpread2
          [("serviceAccount", JSValue.str "sa"), ("apiKey", JSValue.str "k"),
            ("uid", JSValue.str "u1")]
          [("uid", JSValue.str "admin-uid")]) "uid" = some (JSValue.str "admin-uid") := by
  have h := (C5_profile_override
      { provider := "firebase",
        firebase := some [("serviceAccount", JSValue.str "sa"),
          ("apiKey", JSValue.str "k"), ("uid", JSValue.str "u1")],
        supabase := none,
        profiles := some [("admin", [("uid", JSValue.str "admin-uid")])],
        debug := none }
      { profile := some "admin", waitAfter := none }
      "admin"
      [("uid", JSValue.str "admin-uid")]
      [("serviceAccount", JSValue.str "sa"), ("apiKey", JSValue.str "k"),
        ("uid", JSValue.str "u1")]
      rfl rfl rfl).1 rfl rfl
  exact ⟨h.1, by rw [h.2.1 "uid"]; rfl⟩

/-- C6: when the principal profile lookup fails after a successful token
exchange (the earlier steps having succeeded), `inject` raises
`AuthenticationFailed` naming the principal id — not a token-exchange kind —
and no storage injection script is registered; the failure short-circuits
the remaining steps (their outcomes are irrelevant), and a registered
script implies the whole pipeline succeeded. -/
theorem C6_user_lookup_failure :
    ∀ (st : Bool) (config : FirebaseConfig) (env : PipelineEnv)
      (ct : String) (tok : FirebaseTokenResponse) (msg : String),
      (FirebaseAuthProvider.initializeAdmin st env.adminInitOutcome).1 = .ok () →
      env.mintOutcome = .ok ct →
      FirebaseAuthProvider.exchangeCustomToken env.fetchResult = .ok tok →
      env.userLookupOutcome = .error msg →
      ((FirebaseAuthProvider.inject st config env).result
          = .error (.authenticationFailed
              ("Failed to get user info (UID: " ++ config.uid ++ "): " ++ msg))
       ∧ (FirebaseAuthProvider.inject st config env).registeredScript = none
       ∧ (∀ a g, FirebaseAuthProvider.inject st config
             { env with addInitScriptOutcome := a, gotoOutcome := g }
           = FirebaseAuthProvider.inject st config env)
       ∧ (∀ (env2 : PipelineEnv) (d : AuthData),
            (FirebaseAuthProvider.inject st config env2).registeredScript = some d →
            (FirebaseAuthProvider.inject st config env2).result = .ok ())) := by
  intro st config env ct tok msg h1 h2 h3 h4
  rcases hA : FirebaseAuthProvider.initializeAdmin st env.adminInitOutcome with ⟨r1, st1⟩
  rw [hA] at h1
  simp only at h1
  subst h1
  have hv : FirebaseAuthProvider.inject st config env
      = { result := .error (.authenticationFailed
            ("Failed to get user info (UID: " ++ config.uid ++ "): " ++ msg)),
          adminInitializedAfter := st1,
          registeredScript := none } := by
    simp only [FirebaseAuthProvider.inject, hA, h2, h3, h4,
      FirebaseAuthProvider.createCustomToken, FirebaseAuthProvider.getUserRecord]
  refine ⟨by rw [hv], by rw [hv], ?_, ?_⟩
  · intro a g
    rw [hv]
    simp only [FirebaseAuthProvider.inject, hA, h2, h3, h4,
      FirebaseAuthProvider.createCustomToken, FirebaseAuthProvider.getUserRecord]
  · intro env2 d hd
    rcases hB : FirebaseAuthProvider.initializeAdmin st env2.adminInitOutcome with ⟨r2, st2⟩
    cases r2 with
    | error e =>
      have hw : FirebaseAuthProvider.inject st config env2
          = { result := .error e, adminInitializedAfter := st2, registeredScript := none } := by
        simp only [FirebaseAuthProvider.inject, hB]
      rw [hw] at hd
      exact Option.noConfusion hd
    | ok u1 =>
      cases hm : env2.mintOutcome with
      | error m2 =>
        have hw : FirebaseAuthProvider.inject st config env2
            = { result := .error (.authenticationFailed
                  ("Failed to create custom token (UID: " ++ config.uid ++ "): " ++ m2)),
                adminInitializedAfter := st2, registeredScript := none } := by
          simp only [FirebaseAuthProvider.inject, hB, hm,
            FirebaseAuthProvider.createCustomToken]
        rw [hw] at hd
        exact Option.noConfusion hd
      | ok ct2 =>
        cases hx : FirebaseAuthProvider.exchangeCustomToken env2.fetchResult with
        | error e2 =>
          have hw : FirebaseAuthProvider.inject st config env2
              = { result := .error e2, adminInitializedAfter := st2,
                  registeredScript := none } := by
            simp only [FirebaseAuthProvider.inject, hB, hm, hx,
              FirebaseAuthProvider.createCustomToken]
          rw [hw] at hd
          exact Option.noConfusion hd
        | ok tok2 =>
          cases hu : env2.userLookupOutcome with
          | error m3 =>
            have hw : FirebaseAuthProvider.inject st config env2
                = { result := .error (.authenticationFailed
                      ("Failed to get user info (UID: " ++ config.uid ++ "): " ++ m3)),
                    adminInitializedAfter := st2, registeredScript := none } := by
              simp only [FirebaseAuthProvider.inject, hB, hm, hx, hu,
                FirebaseAuthProvider.createCustomToken, FirebaseAuthProvider.getUserRecord]
            rw [hw] at hd
            exact Option.noConfusion hd
          | ok u2 =>
            cases ha : env2.addInitScriptOutcome with
            | error m4 =>
              have hw : FirebaseAuthProvider.inject st config env2
                  = { result := .error (.injectionFailed
                        ("Failed to add IndexedDB injection script: " ++ m4)),
                      adminInitializedAfter := st2, registeredScript := none } := by
                simp only [FirebaseAuthProvider.inject, hB, hm, hx, hu, ha,
                  FirebaseAuthProvider.createCustomToken, FirebaseAuthProvider.getUserRecord]
              rw [hw] at hd
              exact Option.noConfusion hd
            | ok u3 =>
              have hw : FirebaseAuthProvider.inject st config env2
                  = { result := .ok (), adminInitializedAfter := st2,
                      registeredScript := some (FirebaseAuthProvider.createAuthData
                        config.uid config.apiKey tok2 u2 env2.now) } := by
                simp only [FirebaseAuthProvider.inject, hB, hm, hx, hu, ha,
                  FirebaseAuthProvider.createCustomToken, FirebaseAuthProvider.getUserRecord]
              rw [hw]

/-- C6 witness: a concrete run whose four first steps succeed and whose
profile lookup fails reports the `AuthenticationFailed` error naming `u1`
and registers no script. -/
theorem C6_user_lookup_failure_witness :
    ((FirebaseAuthProvider.inject false
        { serviceAccount := "sa", apiKey := "k", uid := "u1" }
        { adminInitOutcome := .ok (), mintOutcome := .ok "ct",
          fetchResult := .httpResponse 200 "{}"
            (.ok { idToken := "T", refreshToken := "R", expiresIn := "3600" }),
          userLookupOutcome := .error "user not found",
          addInitScriptOutcome := .ok (), gotoOutcome := .ok (), now := 0 }).result
      = .error (.authenticationFailed
          ("Failed to get user info (UID: " ++ "u1" ++ "): " ++ "user not found")))
    ∧ ((FirebaseAuthProvider.inject false
        { serviceAccount := "sa", apiKey := "k", uid := "u1" }
        { adminInitOutcome := .ok (), mintOutcome := .ok "ct",
          fetchResult := .httpResponse 200 "{}"
            (.ok { idToken := "T", refreshToken := "R", expiresIn := "3600" }),
          userLookupOutcome := .error "user not found",
          addInitScriptOutcome := .ok (), gotoOutcome := .ok (), now := 0 }).registeredScript
      = none) := by
  have h := C6_user_lookup_failure false
      { serviceAccount := "sa", apiKey := "k", uid := "u1" }
      { adminInitOutcome := .ok (), mintOutcome := .ok "ct",
        fetchResult := .httpResponse 200 "{}"
          (.ok { idToken := "T", refreshToken := "R", expiresIn := "3600" }),
        userLookupOutcome := .error "user not found",
        addInitScriptOutcome := .ok (), gotoOutcome := .ok (), now := 0 }
      "ct" { idToken := "T", refreshToken := "R", expiresIn := "3600" }
      "user not found" rfl rfl (by rfl) rfl
  exact ⟨h.1, h.2.1⟩

theorem intercalate_go_append (sep : String) :
    ∀ (l : List String) (acc : String), ∃ t, String.intercalate.go acc sep l = acc ++ t := by
  intro l
  induction l with
  | nil =>
    intro acc
    exact ⟨"", (String.append_empty acc).symm⟩
  | cons s ss ih =>
    intro acc
    obtain ⟨t, ht⟩ := ih ((acc ++ sep) ++ s)
    refine ⟨sep ++ (s ++ t), ?_⟩
    rw [show String.intercalate.go acc sep (s :: ss)
        = String.intercalate.go ((acc ++ sep) ++ s) sep ss from rfl, ht]
    rw [String.append_assoc, String.append_assoc]

theorem intercalate_go_mem_decomp (sep p : String) :
    ∀ (l : List String) (acc : String), p ∈ l →
      ∃ pre post, String.intercalate.go acc sep l = pre ++ p ++ post := by
  intro l
  induction l with
  | nil =>
    intro acc h
    exact absurd h (List.not_mem_nil p)
  | cons s ss ih =>
    intro acc h
    rcases List.mem_cons.mp h with rfl | hmem
    · obtain ⟨t, ht⟩ := intercalate_go_append sep ss ((acc ++ sep) ++ p)
      refine ⟨acc ++ sep, t, ?_⟩
      rw [show String.intercalate.go acc sep (p :: ss)
          = String.intercalate.go ((acc ++ sep) ++ p) sep ss from rfl, ht]
    · obtain ⟨pre, post, heq⟩ := ih ((acc ++ sep) ++ s) hmem
      exact ⟨pre, post, by
        rw [show String.intercalate.go acc sep (s :: ss)
            = String.intercalate.go ((acc ++ sep) ++ s) sep ss from rfl, heq]⟩

theorem intercalate_mem_decomp (sep p : String) (l : List String) (h : p ∈ l) :
    ∃ pre post, String.intercalate sep l = pre ++ p ++ post := by
  cases l with
  | nil => exact absurd h (List.not_mem_nil p)
  | cons s ss =>
    rcases List.mem_cons.mp h with rfl | hmem
    · obtain ⟨t, ht⟩ := intercalate_go_append sep ss p
      refine ⟨"", t, ?_⟩
      rw [show String.intercalate sep (p :: ss) = String.intercalate.go p sep ss from rfl,
        ht, String.empty_append]
    · obtain ⟨pre, post, heq⟩ := intercalate_go_mem_decomp sep p ss s hmem
      exact ⟨pre, post, by
        rw [show String.intercalate sep (s :: ss) = String.intercalate.go s sep ss from rfl,
          heq]⟩

theorem configNotFoundMessage_mem_decomp (ps : List String) (p : String) (h : p ∈ ps) :
    ∃ pre post, (AuthErr.configNotFound ps).message = pre ++ p ++ post := by
  obtain ⟨pre, post, heq⟩ := intercalate_mem_decomp "\n" ("  - " ++ p)
    (ps.map (fun q => "  - " ++ q)) (List.mem_map_of_mem _ h)
  refine ⟨"設定ファイルが見つかりません。以下のパスを探しました:\n" ++ (pre ++ "  - "), post, ?_⟩
  rw [show (AuthErr.configNotFound ps).message = configNotFoundMessage ps from rfl]
  unfold configNotFoundMessage
  rw [heq]
  simp [String.append_assoc]

/-- C8: `loadConfig` tries the fixed ordered candidate list resolved against
the working directory, using the first existing match; when no candidate
exists it rejects with `ConfigNotFound` whose search-path list holds every
resolved candidate and whose message contains each of those absolute
paths. -/
theorem C8_loadConfig_not_found :
    ∀ (env : LoadEnv) (cwd : String),
      (∀ n ∈ CONFIG_FILE_NAMES, env.fileExists (resolvePath cwd n) = false) →
      (loadConfig none env cwd
          = (.error (.configNotFound
              [resolvePath cwd "playwright-auth.config.ts",
               resolvePath cwd "playwright-auth.config.js",
               resolvePath cwd "playwright-auth.config.mjs"]), none)
       ∧ (∀ n ∈ CONFIG_FILE_NAMES, ∃ pre post,
            (AuthErr.configNotFound
              [resolvePath cwd "playwright-auth.config.ts",
               resolvePath cwd "playwright-auth.config.js",
               resolvePath cwd "playwright-auth.config.mjs"]).message
              = pre ++ resolvePath cwd n ++ post)
       ∧ (∀ fe : String → Bool,
            (fe (resolvePath cwd "playwright-auth.config.ts") = true →
              findConfigPath fe cwd
                = some (resolvePath cwd "playwright-auth.config.ts"))
            ∧ (fe (resolvePath cwd "playwright-auth.config.ts") = false →
                fe (resolvePath cwd "playwright-auth.config.js") = true →
                findConfigPath fe cwd
                  = some (resolvePath cwd "playwright-auth.config.js"))
            ∧ (fe (resolvePath cwd "playwright-auth.config.ts") = false →
                fe (resolvePath cwd "playwright-auth.config.js") = false →
                fe (resolvePath cwd "playwright-auth.config.mjs") = true →
                findConfigPath fe cwd
                  = some (resolvePath cwd "playwright-auth.config.mjs")))) := by
  intro env cwd hnone
  have h1 := hnone "playwright-auth.config.ts" (by simp [CONFIG_FILE_NAMES])
  have h2 := hnone "playwright-auth.config.js" (by simp [CONFIG_FILE_NAMES])
  have h3 := hnone "playwright-auth.config.mjs" (by simp [CONFIG_FILE_NAMES])
  have hfind : findConfigPath env.fileExists cwd = none := by
    simp [findConfigPath, CONFIG_FILE_NAMES, findConfigPathAux, h1, h2, h3]
  refine ⟨?_, ?_, ?_⟩
  · simp [loadConfig, hfind, CONFIG_FILE_NAMES]
  · intro n hn
    have hmem : resolvePath cwd n
        ∈ [resolvePath cwd "playwright-auth.config.ts",
           resolvePath cwd "playwright-auth.config.js",
           resolvePath cwd "playwright-auth.config.mjs"] := by
      simp only [CONFIG_FILE_NAMES, List.mem_cons, List.not_mem_nil, or_false] at hn
      rcases hn with rfl | rfl | rfl <;> simp
    obtain ⟨pre, post, heq⟩ := configNotFoundMessage_mem_decomp _ _ hmem
    exact ⟨pre, post, heq⟩
  · intro fe
    refine ⟨?_, ?_, ?_⟩
    · intro ha
      simp [findConfigPath, CONFIG_FILE_NAMES, findConfigPathAux, ha]
    · intro ha hb
      simp [findConfigPath, CONFIG_FILE_NAMES, findConfigPathAux, ha, hb]
    · intro ha hb hc
      simp [findConfigPath, CONFIG_FILE_NAMES, findConfigPathAux, ha, hb, hc]

/-- C8 witness: with no candidate existing under `/w`, `loadConfig` rejects
with `ConfigNotFound` listing all three resolved candidate paths. -/
theorem C8_loadConfig_not_found_witness :
    loadConfig none { fileExists := fun _ => false, importDefault := fun _ => .error "e" } "/w"
      = (.error (.configNotFound
          [resolvePath "/w" "playwright-auth.config.ts",
           resolvePath "/w" "playwright-auth.config.js",
           resolvePath "/w" "playwright-auth.config.mjs"]), none)
    ∧ (∃ pre post,
        (AuthErr.configNotFound
          [resolvePath "/w" "playwright-auth.config.ts",
           resolvePath "/w" "playwright-auth.config.js",
           resolvePath "/w" "playwright-auth.config.mjs"]).message
          = pre ++ resolvePath "/w" "playwright-auth.config.js" ++ post) := by
  have h := C8_loadConfig_not_found
      { fileExists := fun _ => false, importDefault := fun _ => .error "e" } "/w"
      (fun n _ => rfl)
  exact ⟨h.1, h.2.1 "playwright-auth.config.js" (by simp [CONFIG_FILE_NAMES])⟩

/-- C9: once the cache is populated, every later `loadConfig` call returns
the identical cached configuration — regardless of the `cwd` argument and
without consulting the filesystem or re-importing/re-validating — until
`clearConfigCache` empties it; a failed load leaves the cache empty, and
only a successful (validated) load populates it with the returned value. -/
theorem C9_config_cache :
    ∀ (c : JSValue) (env env2 : LoadEnv) (cwd cwd2 : String),
      (loadConfig (some c) env cwd = (.ok c, some c))
      ∧ (loadConfig (some c) env cwd = loadConfig (some c) env2 cwd2)
      ∧ (∀ e, (loadConfig none env cwd).1 = .error e →
          (loadConfig none env cwd).2 = none)
      ∧ (∀ v, (loadConfig none env cwd).1 = .ok v →
          (loadConfig none env cwd).2 = some v)
      ∧ (clearConfigCache (some c) = none) := by
  intro c env env2 cwd cwd2
  refine ⟨rfl, rfl, ?_, ?_, rfl⟩
  · intro e he
    cases hf : findConfigPath env.fileExists cwd with
    | none => simp [loadConfig, hf]
    | some p =>
      cases hi : env.importDefault p with
      | error m => simp [loadConfig, hf, hi]
      | ok v =>
        cases hval : Config.validateConfig v with
        | error e2 => simp [loadConfig, hf, hi, hval]
        | ok u =>
          exfalso
          rw [show (loadConfig none env cwd).1 = .ok v by
            simp [loadConfig, hf, hi, hval]] at he
          exact Except.noConfusion he
  · intro v hv
    cases hf : findConfigPath env.fileExists cwd with
    | none =>
      exfalso
      rw [show (loadConfig none env cwd).1
          = .error (.configNotFound (CONFIG_FILE_NAMES.map (resolvePath cwd))) by
        simp [loadConfig, hf]] at hv
      exact Except.noConfusion hv
    | some p =>
      cases hi : env.importDefault p with
      | error m =>
        exfalso
        rw [show (loadConfig none env cwd).1
            = .error (.configInvalid ("設定ファイルの読み込みに失敗しました: " ++ m) none) by
          simp [loadConfig, hf, hi]] at hv
        exact Except.noConfusion hv
      | ok w =>
        cases hval : Config.validateConfig w with
        | error e2 =>
          exfalso
          rw [show (loadConfig none env cwd).1 = .error e2 by
            simp [loadConfig, hf, hi, hval]] at hv
          exact Except.noConfusion hv
        | ok u =>
          have h1 : (loadConfig none env cwd).1 = .ok w := by
            simp [loadConfig, hf, hi, hval]
          rw [h1] at hv
          obtain rfl := Except.ok.inj hv
          simp [loadConfig, hf, hi, hval]

/-- C9 witness: a failed load (no candidate file) leaves the cache empty,
and a call with a populated cache returns the cached value unchanged even
under a different `cwd` and filesystem. -/
theorem C9_config_cache_witness :
    ((loadConfig none
        { fileExists := fun _ => false, importDefault := fun _ => .error "boom" }
        "/w").2 = none)
    ∧ (loadConfig (some (JSValue.obj []))
        { fileExists := fun _ => false, importDefault := fun _ => .error "boom" }
        "/w"
      = loadConfig (some (JSValue.obj []))
          { fileExists := fun _ => true, importDefault := fun _ => .error "boom" }
          "/other") := by
  have h := C9_config_cache (JSValue.obj [])
      { fileExists := fun _ => false, importDefault := fun _ => .error "boom" }
      { fileExists := fun _ => true, importDefault := fun _ => .error "boom" }
      "/w" "/other"
  refine ⟨h.2.2.1 (.configNotFound
      [resolvePath "/w" "playwright-auth.config.ts",
       resolvePath "/w" "playwright-auth.config.js",
       resolvePath "/w" "playwright-auth.config.mjs"]) rfl, h.2.1⟩
